import Mathlib

/-!
Verification development for the booking-availability and mutation engine of the
callgate-voiceagent backend (src/backend/app).

Shallow embedding conventions:
* timezone-aware instants are modeled as `Int` seconds since the Unix epoch (UTC);
  the Python code compares aware datetimes, which is order-isomorphic to this model,
  and all inputs of interest have whole-second resolution;
* database rows (`Booking`, `Customer`, `IdempotencyKey`) are structures, the store
  is a `DB` structure of row lists plus autoincrement counters, mirroring the
  SQLAlchemy session as used by the code (scan-then-filter queries read the lists
  in insertion order, matching `db.query(Model).all()`);
* the remote google-calendar collaborator is an oracle parameter: its only
  observable behaviours in the embedded code are "raises" or "returns a payload".
-/

namespace Callgate

/-! ## Data model (src/backend/app/db/models.py) -/

structure BookingRow where
  id : Nat
  business_id : Nat
  customer_id : Nat
  start_time : Int
  end_time : Int
  party_size : Int
  status : String
  notes : Option String
  source : String
  external_event_provider : Option String
  external_event_id : Option String
deriving Repr, DecidableEq

structure CustomerRow where
  id : Nat
  business_id : Nat
  name : String
  phone : String
deriving Repr, DecidableEq

/-- The two policy keys read by the embedded code out of `Business.policies_json`. -/
structure Policies where
  retell_agent_id : Option String
  max_total_guests_per_15min : Option Int
deriving Repr, DecidableEq

structure Business where
  id : Nat
  external_id : Option String
  name : String
  timezone : String
  phone : Option String
  transfer_phone : Option String
  policies_json : Option Policies
  calendar_provider : Option String
  calendar_oauth_status : String
deriving Repr, DecidableEq

/-- Python `str.lower()` restricted to ASCII, which is all the embedded code
compares (status and provider strings); kernel-reducible by construction. -/
def pyLowerChar (c : Char) : Char :=
  if 65 ≤ c.toNat ∧ c.toNat ≤ 90 then Char.ofNat (c.toNat + 32) else c

/-- See `pyLowerChar`. -/
def pyLower (s : String) : String := String.mk (s.data.map pyLowerChar)

/-! ## AvailabilityEngine (src/backend/app/tools/check_availability.py) -/

/-- `SLOT_INCREMENT_MINUTES = 15`, i.e. 900 seconds. -/
def SLOT_INCREMENT_SECONDS : Int := 900

/-- `_floor_to_15_min`: zero the seconds and floor the minute to a multiple of 15.
On seconds-since-epoch this is flooring to a multiple of 900 (the datetime minute
and second fields are the nonnegative remainders of the hour). -/
def floor_to_15_min (t : Int) : Int := t - t.emod 900

/-- `_iter_15min_slots`: every 15-minute-aligned instant from the floor of `s`
while the cursor is at most `e`, stepping 900 seconds. -/
def iter_15min_slots (s e : Int) : List Int :=
  let first := floor_to_15_min s
  if first ≤ e then
    (List.range (((e - first).toNat / 900) + 1)).map (fun k => first + 900 * (k : Int))
  else []

/-- Number of iterations of the `while bucket < candidate_end` loop in
`_is_slot_available`: the buckets are `start + 900*k` for `k < numBuckets dur`. -/
def numBuckets (durationMinutes : Int) : Nat := ((durationMinutes * 60).toNat + 899) / 900

/-- The inner `for booking in existing_bookings` loop of `_is_slot_available` for a
single bucket, carrying the running `total_guests`: cancelled rows are skipped, a
row overlapping the bucket half-open adds its party size, and after each
non-cancelled row the running total is compared against the cap. -/
def scanBucket (cap : Int) (bucket bucketEnd : Int) : Int → List BookingRow → Bool
  | _, [] => true
  | total, b :: rest =>
    if pyLower b.status == "cancelled" then
      scanBucket cap bucket bucketEnd total rest
    else
      let total2 := if b.start_time < bucketEnd ∧ b.end_time > bucket then total + b.party_size else total
      if total2 > cap then false else scanBucket cap bucket bucketEnd total2 rest

/-- `_is_slot_available` (also the public `is_slot_available` wrapper): partition
`[candidate_start, candidate_start + duration)` into 15-minute buckets and run the
per-bucket scan starting from the requested party size. -/
def is_slot_available (candidate_start party_size booking_duration_minutes cap : Int)
    (existing_bookings : List BookingRow) : Bool :=
  (List.range (numBuckets booking_duration_minutes)).all fun k =>
    let bucket := candidate_start + 900 * (k : Int)
    scanBucket cap bucket (bucket + 900) party_size existing_bookings

/-- The sort key of `find_best_available_start_times`:
`(abs(dt - desired_start), dt)` compared lexicographically. -/
def candidateKeyLe (desired a b : Int) : Prop :=
  |a - desired| < |b - desired| ∨ (|a - desired| = |b - desired| ∧ a ≤ b)

instance (d a b : Int) : Decidable (candidateKeyLe d a b) := by
  unfold candidateKeyLe; infer_instance

instance (d : Int) : DecidableRel (candidateKeyLe d) := fun _ _ => by infer_instance

/-- The accumulation loop of `find_best_available_start_times`: walk the ranked
candidates, append each available one, and stop as soon as the accumulated count
reaches `max_results` (the count is tested only after appending). -/
def collectAvailable (p : Int → Bool) (max_results : Int) : List Int → List Int → List Int
  | acc, [] => acc
  | acc, c :: cs =>
    if p c then
      let acc2 := acc ++ [c]
      if (acc2.length : Int) ≥ max_results then acc2 else collectAvailable p max_results acc2 cs
    else collectAvailable p max_results acc cs

/-- `find_best_available_start_times`. The Python code ranks the candidates with
the stable list sort on the key `(abs(dt - desired), dt)`; the candidates are
pairwise distinct and the key order is a linear order on them, so every comparison
sort produces the same list, modeled here with insertion sort on that order. -/
def find_best_available_start_times (desired_start flexibility_minutes party_size
    booking_duration_minutes max_total_guests_per_15_min : Int)
    (existing_bookings : List BookingRow) (max_results : Int) : List Int :=
  let window_start := desired_start - flexibility_minutes * 60
  let window_end := desired_start + flexibility_minutes * 60
  let candidates :=
    List.insertionSort (candidateKeyLe desired_start) (iter_15min_slots window_start window_end)
  collectAvailable
    (fun c => is_slot_available c party_size booking_duration_minutes
      max_total_guests_per_15_min existing_bookings)
    max_results [] candidates

/-- `fetch_existing_bookings`: all rows of the business whose interval meets
`(search_start, search_end + duration)`, in row order. -/
def fetch_existing_bookings (allBookings : List BookingRow) (business_id : Nat)
    (search_start search_end : Int) (booking_duration_minutes : Int) : List BookingRow :=
  let interval_end := search_end + booking_duration_minutes * 60
  allBookings.filter fun b =>
    b.business_id == business_id && decide (b.end_time > search_start)
      && decide (b.start_time < interval_end)

/-- Modelled from the spec (section 4.2 feasibility test, for comparison with
`is_slot_available`): the summed party size of a bucket is the requested party
size plus the party sizes of all non-cancelled existing bookings whose interval
half-open-overlaps the bucket. -/
def specBucketTotal (party : Int) (bucketStart bucketEnd : Int)
    (bookings : List BookingRow) : Int :=
  party + ((bookings.filter fun b =>
      !(pyLower b.status == "cancelled") && decide (b.start_time < bucketEnd)
        && decide (b.end_time > bucketStart)).map (fun b => b.party_size)).sum

/-- Modelled from the spec (section 4.2): a candidate is feasible when no
15-minute bucket of its interval has a summed party size above the cap. -/
def specSlotFeasible (start party durationMinutes cap : Int)
    (bookings : List BookingRow) : Prop :=
  ∀ k < numBuckets durationMinutes,
    specBucketTotal party (start + 900 * (k : Int)) (start + 900 * (k : Int) + 900) bookings ≤ cap

instance (start party durationMinutes cap : Int) (bookings : List BookingRow) :
    Decidable (specSlotFeasible start party durationMinutes cap bookings) := by
  unfold specSlotFeasible; infer_instance

end Callgate


namespace Callgate

/-! ## TenantResolver (src/backend/app/retell/request_parser.py) -/

/-- `_pick_string`: a stripped non-empty string, else nothing. -/
def pickString (v : Option String) : Option String :=
  match v with
  | some s => if s.trim = "" then none else some s.trim
  | none => none

/-- `_normalize_phone`: digits-only normalization (empty for missing/empty). -/
def normalizePhone (v : Option String) : String :=
  match v with
  | some s => if s = "" then "" else String.mk (s.data.filter Char.isDigit)
  | none => ""

/-- `_is_dev_env`: the implicit environment-string comparison, with the `ENV`
variable (modeled as `Option String`) defaulting to `"dev"` when unset. -/
def is_dev_env (env : Option String) : Bool :=
  let e := pyLower (env.getD "dev")
  e == "dev" || e == "development" || e == "local"

/-- `policies.get("retell_agent_id", "")` followed by `str(...).strip()`. -/
def agentIdOf (b : Business) : String :=
  match b.policies_json with
  | some p => (p.retell_agent_id.getD "").trim
  | none => ""

/-- `_find_business_by_ref`. -/
def find_business_by_ref (businesses : List Business) (ref : String) : Option Business :=
  businesses.find? fun b => b.external_id.getD "" == ref || toString b.id == ref

/-- `_find_business_by_phone`. -/
def find_business_by_phone (businesses : List Business) (to_number : String) : Option Business :=
  let target := normalizePhone (some to_number)
  businesses.find? fun b =>
    normalizePhone b.phone == target || normalizePhone b.transfer_phone == target

/-- `_find_business_by_agent_id`. -/
def find_business_by_agent_id (businesses : List Business) (agent_id : String) : Option Business :=
  businesses.find? fun b => agentIdOf b == agent_id

/-- `_find_demo_business`. -/
def find_demo_business (businesses : List Business) : Option Business :=
  match businesses.find? (fun b => b.external_id.getD "" == "demo") with
  | some b => some b
  | none =>
    match businesses.find? (fun b => b.name == "Demo Restaurant") with
    | some b => some b
    | none => businesses.head?

/-- The call-context signals consumed by `resolve_business` (the raw metadata
tenant reference, metadata business id, called to-number, and agent id). -/
structure CallContext where
  internal_customer_id : Option String
  business_id : Option String
  to_number : Option String
  agent_id : Option String
deriving Repr, DecidableEq

inductive ResolveError where
  | missingTenantContext
  | businessResolutionFailed
deriving Repr, DecidableEq

/-- `resolve_business`: strict-priority exact-match lookups, then the demo
fallback gated on `_is_dev_env`, then the two failure modes. -/
def resolve_business (env : Option String) (businesses : List Business)
    (call : CallContext) : Except ResolveError Business :=
  let internal_customer_id := pickString call.internal_customer_id
  let metadata_business_id := pickString call.business_id
  let to_number := pickString call.to_number
  let agent_id := pickString call.agent_id
  let matched :=
    (internal_customer_id.bind fun r => find_business_by_ref businesses r).orElse fun _ =>
    ((metadata_business_id.bind fun r => find_business_by_ref businesses r).orElse fun _ =>
    ((to_number.bind fun n => find_business_by_phone businesses n).orElse fun _ =>
    (agent_id.bind fun a => find_business_by_agent_id businesses a)))
  match matched with
  | some b => .ok b
  | none =>
    let any_context_present := internal_customer_id.isSome || metadata_business_id.isSome
      || to_number.isSome || agent_id.isSome
    if any_context_present then
      if is_dev_env env then
        match find_demo_business businesses with
        | some demo => .ok demo
        | none => .error .businessResolutionFailed
      else .error .businessResolutionFailed
    else
      if is_dev_env env then
        match find_demo_business businesses with
        | some demo => .ok demo
        | none => .error .missingTenantContext
      else .error .missingTenantContext

end Callgate

namespace Callgate

/-! ## BookingMutator: create (src/backend/app/tools/create_booking.py) -/

def BOOKING_DURATION_MINUTES : Int := 90

structure CreateBookingArgs where
  customer_name : String
  customer_phone : String
  start_time : Int
  party_size : Int
  notes : Option String
deriving Repr, DecidableEq

/-- The `data` object of the create-booking response payload; the optional
`warning` key is absent (`none`) unless calendar sync fails. -/
structure CreateData where
  booking_id : Nat
  customer_id : Nat
  customer_name : String
  customer_phone : String
  start_time : Int
  end_time : Int
  party_size : Int
  status : String
  source : String
  notes : Option String
  warning : Option String
deriving Repr, DecidableEq

structure CreateResponse where
  ok : Bool
  data : CreateData
deriving Repr, DecidableEq

/-- An `IdempotencyKey` row. The code only ever inserts rows whose
`response_json` is a full response payload, so the field is not optional here. -/
structure IdemRecord where
  key : String
  response_json : CreateResponse
deriving Repr, DecidableEq

/-- The persistent store: row lists in insertion order plus the autoincrement
sequences for customer and booking primary keys. -/
structure DB where
  customers : List CustomerRow
  bookings : List BookingRow
  idem : List IdemRecord
  nextCustomerId : Nat
  nextBookingId : Nat
deriving Repr, DecidableEq

/-- `compute_create_booking_idempotency_key`: the sha256 fingerprint of
`call_id|start_time.isoformat()|customer_phone`; a missing or empty call id is a
hard input error (`ValueError`). The hash is modeled by its preimage string (the
hash is treated as injective), with the instant rendered through its injective
integer representation. -/
def compute_create_booking_idempotency_key (call_id : Option String)
    (args : CreateBookingArgs) : Except String String :=
  match call_id with
  | none => .error "Missing call.call_id"
  | some cid =>
    if cid = "" then .error "Missing call.call_id"
    else .ok (cid ++ "|" ++ toString args.start_time ++ "|" ++ args.customer_phone)

/-- `_find_idempotency_key`: first row with the key, in row order. -/
def find_idempotency_key (db : DB) (key : String) : Option IdemRecord :=
  db.idem.find? fun r => r.key == key

/-- `_find_customer_by_phone`: first customer of the business with the phone. -/
def find_customer_by_phone (db : DB) (business_id : Nat) (phone : String) :
    Option CustomerRow :=
  db.customers.find? fun c => c.business_id == business_id && c.phone == phone

/-- `_is_google_calendar_connected`. -/
def is_google_calendar_connected (b : Business) : Bool :=
  pyLower (b.calendar_provider.getD "") == "google"
    && pyLower b.calendar_oauth_status == "connected"

/-- In-place mutation of the first idempotency row carrying the key
(`persisted.response_json = response_json`). -/
def setIdemResponseFirst (key : String) (resp : CreateResponse) :
    List IdemRecord → List IdemRecord
  | [] => []
  | r :: rs =>
    if r.key == key then { r with response_json := resp } :: rs
    else r :: setIdemResponseFirst key resp rs

/-- In-place mutation of the found customer row (`customer.name = ...`). -/
def setCustomerNameFirst (cid : Nat) (name : String) : List CustomerRow → List CustomerRow
  | [] => []
  | c :: cs =>
    if c.id == cid then { c with name := name } :: cs
    else c :: setCustomerNameFirst cid name cs

/-- In-place mutation of the booking row that records the external event. -/
def setBookingEventFirst (bid : Nat) (event_id : String) : List BookingRow → List BookingRow
  | [] => []
  | b :: bs =>
    if b.id == bid then
      { b with external_event_provider := some "google", external_event_id := some event_id } :: bs
    else b :: setBookingEventFirst bid event_id bs

/-- Oracle for the remote `create_event` call: it either raises or returns a
payload whose `id` entry is the given optional string. -/
inductive CalendarCall where
  | raises
  | returns (idField : Option String)
deriving Repr, DecidableEq

/-- The part of `create_booking_with_idempotency` up to and including the first
`db.commit()`. The two `DB` arguments model optimistic concurrency: `snapshot` is
the state the session reads, `commitDB` the durable state when the transaction
commits; the unique index on the idempotency key rejects the commit
(`IntegrityError`) exactly when the key is already durable, in which case the
loser rolls back and replays the winner response (in this model the replayed row
always carries a payload, so the re-raise branch of the except-clause is dead).
Sequential executions instantiate both arguments with the same state. -/
inductive CreatePhase1 where
  | inputError (msg : String)
  | replay (resp : CreateResponse)
  | integrityReplay (resp : CreateResponse)
  | committed (key : String) (resp : CreateResponse) (booking_id : Nat) (db : DB)
deriving Repr, DecidableEq

def createPhase1 (snapshot commitDB : DB) (business : Business) (call_id : Option String)
    (args : CreateBookingArgs) : CreatePhase1 :=
  match compute_create_booking_idempotency_key call_id args with
  | .error m => .inputError m
  | .ok key =>
    match find_idempotency_key snapshot key with
    | some existing => .replay existing.response_json
    | none =>
      let found := find_customer_by_phone snapshot business.id args.customer_phone
      let customer : CustomerRow :=
        match found with
        | some c => { c with name := args.customer_name }
        | none => ⟨snapshot.nextCustomerId, business.id, args.customer_name, args.customer_phone⟩
      let end_time := args.start_time + BOOKING_DURATION_MINUTES * 60
      let booking : BookingRow :=
        ⟨snapshot.nextBookingId, business.id, customer.id, args.start_time, end_time,
          args.party_size, "confirmed", args.notes, "retell", none, none⟩
      let resp : CreateResponse :=
        ⟨true, ⟨booking.id, customer.id, customer.name, customer.phone, booking.start_time,
          booking.end_time, booking.party_size, booking.status, booking.source,
          booking.notes, none⟩⟩
      match find_idempotency_key commitDB key with
      | some winner => .integrityReplay winner.response_json
      | none =>
        let customersAfter :=
          match found with
          | some c => setCustomerNameFirst c.id args.customer_name commitDB.customers
          | none => commitDB.customers ++ [customer]
        let committed : DB :=
          { customers := customersAfter
            bookings := commitDB.bookings ++ [booking]
            idem := commitDB.idem ++ [⟨key, resp⟩]
            nextCustomerId := match found with
              | some _ => snapshot.nextCustomerId
              | none => snapshot.nextCustomerId + 1
            nextBookingId := snapshot.nextBookingId + 1 }
        .committed key resp booking.id committed

/-- The calendar side channel of `create_booking_with_idempotency`, run after the
primary commit on the fresh-create path: on a returned event id the booking row
is updated and committed; on an exception the rollback touches nothing durable,
the response gains the warning field, and the stored idempotent response is
rewritten to match. -/
def calendarSync (business : Business) (key : String) (resp : CreateResponse)
    (booking_id : Nat) (db : DB) (calendar : CalendarCall) : CreateResponse × DB :=
  if is_google_calendar_connected business then
    match calendar with
    | .returns idField =>
      match pickString idField with
      | some event_id =>
        (resp, { db with bookings := setBookingEventFirst booking_id event_id db.bookings })
      | none => (resp, db)
    | .raises =>
      let resp2 := { resp with data := { resp.data with warning := some "Calendar sync failed" } }
      (resp2, { db with idem := setIdemResponseFirst key resp2 db.idem })
  else (resp, db)

inductive CreateOutcome where
  | raisesValueError (msg : String)
  | done (resp : CreateResponse) (db : DB)
deriving Repr, DecidableEq

/-- `create_booking_with_idempotency`: phase 1 (idempotent lookup, row creation,
first commit with the unique-key constraint) followed by the best-effort calendar
side channel; replay paths return the stored response with no writes. -/
def create_booking_with_idempotency (snapshot commitDB : DB) (business : Business)
    (call_id : Option String) (args : CreateBookingArgs) (calendar : CalendarCall) :
    CreateOutcome :=
  match createPhase1 snapshot commitDB business call_id args with
  | .inputError m => .raisesValueError m
  | .replay resp => .done resp commitDB
  | .integrityReplay resp => .done resp commitDB
  | .committed key resp booking_id committed =>
    let r2 := calendarSync business key resp booking_id committed calendar
    .done r2.1 r2.2

end Callgate

namespace Callgate

/-! ## BookingMutator: modify and cancel (src/backend/app/tools/manage_booking.py) -/

structure ModifyBookingArgs where
  booking_id : Nat
  start_time : Option Int
  party_size : Option Int
  notes : Option String
deriving Repr, DecidableEq

/-- Oracle for the remote update/delete event calls, whose only observable
behaviours here are raising or succeeding. -/
inductive SideEffectOutcome where
  | raises
  | succeeds
deriving Repr, DecidableEq

structure ModifyData where
  booking_id : Nat
  start_time : Int
  end_time : Int
  party_size : Int
  notes : Option String
  status : String
  source : String
  warning : Option String
deriving Repr, DecidableEq

inductive ModifyResult where
  | ok (data : ModifyData)
  | err (error_code : String) (human_message : String)
deriving Repr, DecidableEq

structure CancelData where
  booking_id : Nat
  status : String
  warning : Option String
deriving Repr, DecidableEq

inductive CancelResult where
  | ok (data : CancelData)
  | err (error_code : String) (human_message : String)
deriving Repr, DecidableEq

/-- `find_booking_for_business`: first row with the id that belongs to the
business; lookup is scoped to `business_id`. -/
def find_booking_for_business (db : DB) (business_id booking_id : Nat) : Option BookingRow :=
  db.bookings.find? fun b => b.id == booking_id && b.business_id == business_id

/-- `_find_customer_for_booking`. -/
def find_customer_for_booking (db : DB) (b : BookingRow) : Option CustomerRow :=
  db.customers.find? fun c => c.id == b.customer_id && c.business_id == b.business_id

/-- `_should_sync_google_event`. -/
def should_sync_google_event (business : Business) (b : BookingRow) : Bool :=
  pyLower (business.calendar_provider.getD "") == "google"
    && pyLower business.calendar_oauth_status == "connected"
    && pyLower (b.external_event_provider.getD "") == "google"
    && (b.external_event_id.getD "") != ""

/-- `policies.get("max_total_guests_per_15min", DEFAULT)` with the default 40. -/
def maxGuestsPolicy (business : Business) : Int :=
  match business.policies_json with
  | some p => p.max_total_guests_per_15min.getD 40
  | none => 40

/-- In-place mutation of the booking row found by `find_booking_for_business`. -/
def replaceBookingFirst (booking_id business_id : Nat) (newRow : BookingRow) :
    List BookingRow → List BookingRow
  | [] => []
  | b :: bs =>
    if b.id == booking_id && b.business_id == business_id then newRow :: bs
    else b :: replaceBookingFirst booking_id business_id newRow bs

/-- `modify_booking`. Note that `args.party_size or booking.party_size` falls
back on the stored value also for a zero argument (Python falsiness); schema
validation upstream guarantees a positive value when present. -/
def modify_booking (db : DB) (business : Business) (args : ModifyBookingArgs)
    (calendar : SideEffectOutcome) : ModifyResult × DB :=
  match find_booking_for_business db business.id args.booking_id with
  | none => (.err "BOOKING_NOT_FOUND" "Booking not found for this business.", db)
  | some booking =>
    if pyLower booking.status == "cancelled" then
      (.err "BOOKING_ALREADY_CANCELLED" "Booking is already cancelled.", db)
    else
      let new_start := args.start_time.getD booking.start_time
      let new_party_size :=
        match args.party_size with
        | some p => if p = 0 then booking.party_size else p
        | none => booking.party_size
      let new_notes := match args.notes with | some n => some n | none => booking.notes
      let new_end := new_start + BOOKING_DURATION_MINUTES * 60
      let rejected : Bool :=
        match args.start_time with
        | none => false
        | some _ =>
          let cap := maxGuestsPolicy business
          let existing := fetch_existing_bookings db.bookings business.id new_start new_start 90
          let existing_without_current := existing.filter fun b => !(b.id == booking.id)
          !(is_slot_available new_start new_party_size 90 cap existing_without_current)
      if rejected then
        (.err "NO_AVAILABILITY" "No availability for requested updated start time.", db)
      else
        let updated := { booking with
          start_time := new_start
          end_time := new_end
          party_size := new_party_size
          notes := new_notes }
        let db1 :=
          { db with bookings := replaceBookingFirst args.booking_id business.id updated db.bookings }
        let warning :=
          if should_sync_google_event business updated then
            match find_customer_for_booking db1 updated with
            | some _ =>
              match calendar with
              | .succeeds => none
              | .raises => some "Calendar sync failed"
            | none => none
          else none
        (.ok ⟨updated.id, updated.start_time, updated.end_time, updated.party_size,
          updated.notes, updated.status, updated.source, warning⟩, db1)

/-- `cancel_booking`. -/
def cancel_booking (db : DB) (business : Business) (booking_id : Nat)
    (calendar : SideEffectOutcome) : CancelResult × DB :=
  match find_booking_for_business db business.id booking_id with
  | none => (.err "BOOKING_NOT_FOUND" "Booking not found for this business.", db)
  | some booking =>
    if pyLower booking.status == "cancelled" then
      (.ok ⟨booking.id, booking.status, none⟩, db)
    else
      let updated := { booking with status := "cancelled" }
      let db1 :=
        { db with bookings := replaceBookingFirst booking_id business.id updated db.bookings }
      let warning :=
        if should_sync_google_event business updated then
          match calendar with
          | .succeeds => none
          | .raises => some "Calendar sync failed"
        else none
      (.ok ⟨updated.id, updated.status, warning⟩, db1)

end Callgate

namespace Callgate

instance {e a : Type} [DecidableEq e] [DecidableEq a] : DecidableEq (Except e a) := fun x y =>
  match x, y with
  | .ok u, .ok v =>
    if h : u = v then isTrue (by rw [h]) else isFalse (by intro hc; cases hc; exact h rfl)
  | .error u, .error v =>
    if h : u = v then isTrue (by rw [h]) else isFalse (by intro hc; cases hc; exact h rfl)
  | .ok _, .error _ => isFalse (by intro hc; cases hc)
  | .error _, .ok _ => isFalse (by intro hc; cases hc)

end Callgate

namespace Callgate

/-! ## Lemmas about the candidate ranking and the accumulation loop -/

theorem candidateKeyLe_total (d a b : Int) : candidateKeyLe d a b ∨ candidateKeyLe d b a := by
  unfold candidateKeyLe
  rcases lt_trichotomy (|a - d|) (|b - d|) with h | h | h
  · exact Or.inl (Or.inl h)
  · rcases le_total a b with hab | hab
    · exact Or.inl (Or.inr ⟨h, hab⟩)
    · exact Or.inr (Or.inr ⟨h.symm, hab⟩)
  · exact Or.inr (Or.inl h)

theorem candidateKeyLe_trans (d a b c : Int) (h1 : candidateKeyLe d a b)
    (h2 : candidateKeyLe d b c) : candidateKeyLe d a c := by
  unfold candidateKeyLe at h1 h2 ⊢
  rcases h1 with h1 | ⟨h1e, h1le⟩ <;> rcases h2 with h2 | ⟨h2e, h2le⟩
  · exact Or.inl (h1.trans h2)
  · exact Or.inl (h2e ▸ h1)
  · exact Or.inl (h1e ▸ h2)
  · exact Or.inr ⟨h1e.trans h2e, h1le.trans h2le⟩

theorem collectAvailable_eq_append_sublist (p : Int → Bool) (m : Int) :
    ∀ (cs acc : List Int), ∃ t, collectAvailable p m acc cs = acc ++ t ∧ t.Sublist cs := by
  intro cs
  induction cs with
  | nil => intro acc; exact ⟨[], by simp [collectAvailable], List.Sublist.refl []⟩
  | cons c cs ih =>
    intro acc
    simp only [collectAvailable]
    split
    · split
      · exact ⟨[c], rfl, (List.nil_sublist cs).cons₂ c⟩
      · obtain ⟨t, ht, hsub⟩ := ih (acc ++ [c])
        exact ⟨c :: t, by rw [ht, List.append_assoc, List.singleton_append], hsub.cons₂ c⟩
    · obtain ⟨t, ht, hsub⟩ := ih acc
      exact ⟨t, ht, hsub.cons c⟩

theorem collectAvailable_length_le (p : Int → Bool) (m : Int) :
    ∀ (cs acc : List Int),
      ((collectAvailable p m acc cs).length : Int) ≤ max m ((acc.length : Int) + 1) := by
  intro cs
  induction cs with
  | nil => intro acc; exact le_max_of_le_right (by simp only [collectAvailable]; omega)
  | cons c cs ih =>
    intro acc
    simp only [collectAvailable]
    split
    · split
      · refine le_max_of_le_right ?_
        have hl : (acc ++ [c]).length = acc.length + 1 := by simp
        rw [hl]
        push_cast
        omega
      · rename_i hlen
        have h1 := ih (acc ++ [c])
        have h2 : ((acc ++ [c]).length : Int) + 1 ≤ m := by
          have hl : (acc ++ [c]).length = acc.length + 1 := by simp
          rw [hl] at hlen ⊢
          omega
        rw [max_eq_left h2] at h1
        exact le_max_of_le_left h1
    · exact ih acc

end Callgate

namespace Callgate

/-- C1: the claim states that every candidate accepted by
`find_best_available_start_times` keeps every overlapping 15-minute bucket within
the cap even when no existing booking overlaps the bucket. The code violates this:
the cap comparison sits inside the per-booking loop of `_is_slot_available`, so
with `existing_bookings = []` it never executes and a request of 50 guests is
accepted against a cap of 40 (every bucket total is 50 > 40, so the slot is
infeasible under the spec definition). The same request is rejected as soon as
any non-overlapping booking is present, because then the loop body runs. -/
theorem c1_cap_check_skipped_on_empty_bookings :
    find_best_available_start_times 0 0 50 90 40 [] 3 = [0] ∧
    ¬ specSlotFeasible 0 50 90 40 [] ∧
    is_slot_available 0 50 90 40 [] = true ∧
    is_slot_available 0 50 90 40
      [⟨2, 1, 1, 86400, 91800, 2, "confirmed", none, "retell", none, none⟩] = false := by
  refine ⟨by decide, by decide, by decide, by decide⟩

/-- C4 counterexample: with `max_results = 0` the accumulation loop appends the
first available candidate before testing the count, so the returned list has
length 1, which exceeds `max_results`; the claim as stated is false. -/
theorem c4_counterexample_max_results_zero :
    (find_best_available_start_times 0 0 1 15 40 [] 0).length = 1 ∧
    ¬ (((find_best_available_start_times 0 0 1 15 40 [] 0).length : Int) ≤ 0) := by
  refine ⟨by decide, by decide⟩

/-- C4 (amended): for every input, the returned list is sorted by ascending
absolute distance from `desired_start` with ties broken by the earlier instant,
and its length never exceeds `max max_results 1` (hence never exceeds
`max_results` whenever `max_results ≥ 1`). The function is total by construction,
so it never raises, and the empty list is among its legitimate values. -/
theorem c4_sorted_and_bounded (desired_start flexibility_minutes party_size
    booking_duration_minutes cap max_results : Int) (existing_bookings : List BookingRow) :
    (find_best_available_start_times desired_start flexibility_minutes party_size
        booking_duration_minutes cap existing_bookings max_results).Pairwise
      (candidateKeyLe desired_start) ∧
    ((find_best_available_start_times desired_start flexibility_minutes party_size
        booking_duration_minutes cap existing_bookings max_results).length : Int)
      ≤ max max_results 1 := by
  haveI : IsTotal Int (candidateKeyLe desired_start) := ⟨candidateKeyLe_total desired_start⟩
  haveI : IsTrans Int (candidateKeyLe desired_start) :=
    ⟨fun a b c => candidateKeyLe_trans desired_start a b c⟩
  unfold find_best_available_start_times
  constructor
  · obtain ⟨t, ht, hsub⟩ := collectAvailable_eq_append_sublist
      (fun c => is_slot_available c party_size booking_duration_minutes cap existing_bookings)
      max_results
      (List.insertionSort (candidateKeyLe desired_start)
        (iter_15min_slots (desired_start - flexibility_minutes * 60)
          (desired_start + flexibility_minutes * 60))) []
    rw [ht]
    simp only [List.nil_append]
    exact (List.sorted_insertionSort (candidateKeyLe desired_start) _).sublist hsub
  · have h := collectAvailable_length_le
      (fun c => is_slot_available c party_size booking_duration_minutes cap existing_bookings)
      max_results
      (List.insertionSort (candidateKeyLe desired_start)
        (iter_15min_slots (desired_start - flexibility_minutes * 60)
          (desired_start + flexibility_minutes * 60))) []
    simpa using h

end Callgate

namespace Callgate

/-- C3 counterexample: with every tenant-identifying signal absent and the `ENV`
variable unset (so `_is_dev_env` defaults to true), `resolve_business` returns the
demo business instead of failing with `MissingTenantContext`; the fallback is thus
not restricted to the signal-present-but-unmatched case, and it activates through
an implicit environment-string default rather than an explicit switch. -/
theorem c3_counterexample_dev_fallback_without_signals :
    resolve_business none
        [⟨1, some "demo", "Demo Restaurant", "UTC", none, none, none, none, "not_connected"⟩]
        ⟨none, none, none, none⟩ =
      .ok ⟨1, some "demo", "Demo Restaurant", "UTC", none, none, none, none, "not_connected"⟩ ∧
    resolve_business none
        [⟨1, some "demo", "Demo Restaurant", "UTC", none, none, none, none, "not_connected"⟩]
        ⟨none, none, none, none⟩ ≠ .error .missingTenantContext := by
  refine ⟨by decide, by decide⟩

/-- C3 (amended): when none of the four tenant-identifying signals is present,
`resolve_business` fails with `MissingTenantContext` exactly when the dev fallback
does not apply, i.e. in a non-dev environment or when no demo business is
resolvable; in a dev environment (`ENV` unset, `dev`, `development`, or `local`,
an implicit environment-string comparison defaulting to dev) it instead returns
the demo business when one resolves. -/
theorem c3_no_signal_behaviour (env : Option String) (businesses : List Business)
    (call : CallContext)
    (h1 : pickString call.internal_customer_id = none)
    (h2 : pickString call.business_id = none)
    (h3 : pickString call.to_number = none)
    (h4 : pickString call.agent_id = none) :
    resolve_business env businesses call =
      (if is_dev_env env then
        match find_demo_business businesses with
        | some demo => Except.ok demo
        | none => Except.error ResolveError.missingTenantContext
      else Except.error ResolveError.missingTenantContext) := by
  unfold resolve_business
  rw [h1, h2, h3, h4]
  simp [Option.orElse]

/-- C3 witness: in a production environment with no signals present, the amended
theorem yields `MissingTenantContext` at a concrete input. -/
theorem c3_no_signal_behaviour_witness :
    pickString (none : Option String) = none ∧
    resolve_business (some "prod") [] ⟨none, none, none, none⟩ =
      .error .missingTenantContext := by
  refine ⟨rfl, ?_⟩
  rw [c3_no_signal_behaviour (some "prod") [] ⟨none, none, none, none⟩ rfl rfl rfl rfl]
  decide

end Callgate

namespace Callgate

/-! ## Lemmas about the mutator state helpers -/

theorem length_setBookingEventFirst (bid : Nat) (ev : String) :
    ∀ l : List BookingRow, (setBookingEventFirst bid ev l).length = l.length := by
  intro l
  induction l with
  | nil => rfl
  | cons b bs ih =>
    simp only [setBookingEventFirst]
    split <;> simp [ih]

theorem find?_setIdemResponseFirst (k : String) (resp2 : CreateResponse) :
    ∀ l : List IdemRecord,
      (setIdemResponseFirst k resp2 l).find? (fun r => r.key == k) =
        (l.find? (fun r => r.key == k)).map (fun r => { r with response_json := resp2 }) := by
  intro l
  induction l with
  | nil => rfl
  | cons r rs ih =>
    by_cases h : r.key == k
    · simp [setIdemResponseFirst, h, List.find?]
    · simp only [setIdemResponseFirst, h, if_false, Bool.false_eq_true]
      rw [List.find?]
      simp only [h]
      rw [List.find?]
      simp only [h]
      exact ih

theorem length_filter_setIdemResponseFirst (k : String) (resp2 : CreateResponse) (k2 : String) :
    ∀ l : List IdemRecord,
      ((setIdemResponseFirst k resp2 l).filter (fun r => r.key == k2)).length =
        (l.filter (fun r => r.key == k2)).length := by
  intro l
  induction l with
  | nil => rfl
  | cons r rs ih =>
    simp only [setIdemResponseFirst]
    split
    · simp only [List.filter]
      split <;> simp_all
    · simp only [List.filter]
      split <;> simp_all

theorem find?_replaceBookingFirst (bid biz : Nat) (newRow : BookingRow) :
    ∀ l : List BookingRow,
      l.find? (fun x => x.id == bid && x.business_id == biz) ≠ none →
      (newRow.id == bid && newRow.business_id == biz) = true →
      (replaceBookingFirst bid biz newRow l).find?
          (fun x => x.id == bid && x.business_id == biz) = some newRow := by
  intro l
  induction l with
  | nil => intro h _; exact absurd rfl h
  | cons b bs ih =>
    intro hfound hnew
    by_cases hb : (b.id == bid && b.business_id == biz) = true
    · simp only [replaceBookingFirst, hb, if_true]
      rw [List.find?]
      simp [hnew]
    · simp only [replaceBookingFirst, hb, if_false, Bool.false_eq_true]
      rw [List.find?]
      simp only [hb]
      apply ih _ hnew
      rw [List.find?] at hfound
      simp only [hb] at hfound
      exact hfound

end Callgate

namespace Callgate

/-! ## Lemmas about the create path -/

theorem create_replay_of_found (snapshot commitDB : DB) (business : Business)
    (call_id : Option String) (args : CreateBookingArgs) (cal : CalendarCall)
    (k : String) (rec : IdemRecord)
    (hk : compute_create_booking_idempotency_key call_id args = .ok k)
    (hfound : find_idempotency_key snapshot k = some rec) :
    create_booking_with_idempotency snapshot commitDB business call_id args cal =
      .done rec.response_json commitDB := by
  unfold create_booking_with_idempotency createPhase1
  rw [hk]
  simp only [hfound]

theorem create_conflict_replay (snapshot commitDB : DB) (business : Business)
    (call_id : Option String) (args : CreateBookingArgs) (cal : CalendarCall)
    (k : String) (rec : IdemRecord)
    (hk : compute_create_booking_idempotency_key call_id args = .ok k)
    (hmiss : find_idempotency_key snapshot k = none)
    (hwin : find_idempotency_key commitDB k = some rec) :
    create_booking_with_idempotency snapshot commitDB business call_id args cal =
      .done rec.response_json commitDB := by
  unfold create_booking_with_idempotency createPhase1
  rw [hk]
  simp only [hmiss, hwin]

theorem create_fresh_committed (d : DB) (business : Business)
    (call_id : Option String) (args : CreateBookingArgs) (k : String)
    (hk : compute_create_booking_idempotency_key call_id args = .ok k)
    (hfresh : find_idempotency_key d k = none) :
    ∃ resp cdb bid,
      createPhase1 d d business call_id args = .committed k resp bid cdb ∧
      find_idempotency_key cdb k = some ⟨k, resp⟩ ∧
      cdb.bookings.length = d.bookings.length + 1 ∧
      (cdb.idem.filter (fun r => r.key == k)).length = 1 ∧
      resp.ok = true ∧
      (∃ bk, cdb.bookings = d.bookings ++ [bk] ∧ bk.status = "confirmed" ∧
        bk.id = resp.data.booking_id ∧ bk.party_size = resp.data.party_size ∧
        bk.start_time = resp.data.start_time) := by
  have hfilter : d.idem.filter (fun r => r.key == k) = [] := by
    rw [List.filter_eq_nil_iff]
    intro r hr
    have h2 := List.find?_eq_none.mp hfresh r hr
    simpa using h2
  have hfind0 : d.idem.find? (fun r => r.key == k) = none := hfresh
  unfold createPhase1
  rw [hk]
  simp only [hfresh]
  cases hc : find_customer_by_phone d business.id args.customer_phone with
  | none =>
    refine ⟨_, _, _, rfl, ?_, by simp, ?_, rfl, ⟨_, rfl, rfl, rfl, rfl, rfl⟩⟩
    · unfold find_idempotency_key
      simp only [List.find?_append, hfind0, Option.none_or]
      simp [List.find?]
    · simp [hfilter]
  | some c0 =>
    refine ⟨_, _, _, rfl, ?_, by simp, ?_, rfl, ⟨_, rfl, rfl, rfl, rfl, rfl⟩⟩
    · unfold find_idempotency_key
      simp only [List.find?_append, hfind0, Option.none_or]
      simp [List.find?]
    · simp [hfilter]

theorem calendarSync_spec (business : Business) (k : String) (resp : CreateResponse)
    (bid : Nat) (db : DB) (cal : CalendarCall)
    (hfound : find_idempotency_key db k = some ⟨k, resp⟩) :
    find_idempotency_key (calendarSync business k resp bid db cal).2 k =
      some ⟨k, (calendarSync business k resp bid db cal).1⟩ ∧
    (calendarSync business k resp bid db cal).2.bookings.length = db.bookings.length ∧
    ((calendarSync business k resp bid db cal).2.idem.filter (fun r => r.key == k)).length =
      (db.idem.filter (fun r => r.key == k)).length := by
  unfold calendarSync
  split
  · split
    · split
      · exact ⟨hfound, length_setBookingEventFirst _ _ _, rfl⟩
      · exact ⟨hfound, rfl, rfl⟩
    · refine ⟨?_, rfl, length_filter_setIdemResponseFirst _ _ _ _⟩
      unfold find_idempotency_key at hfound ⊢
      rw [find?_setIdemResponseFirst, hfound]
      rfl
  · exact ⟨hfound, rfl, rfl⟩

/-- C2: two `create_booking_with_idempotency` calls with the same call id,
requested start and customer phone share one idempotency key; the second
sequential call and a racing loser (snapshot taken before the winner committed,
commit arriving after, rejected by the unique key constraint and replayed) both
return exactly the stored response of the first call and write nothing, and the
persisted state carries exactly one booking row and one idempotency row for the
key. -/
theorem c2_duplicate_create_replays (d : DB) (business : Business)
    (call_id : Option String) (args : CreateBookingArgs) (cal cal2 cal3 : CalendarCall)
    (k : String) (r : CreateResponse) (d1 : DB)
    (hk : compute_create_booking_idempotency_key call_id args = .ok k)
    (hfresh : find_idempotency_key d k = none)
    (hrun : create_booking_with_idempotency d d business call_id args cal = .done r d1) :
    create_booking_with_idempotency d1 d1 business call_id args cal2 = .done r d1 ∧
    create_booking_with_idempotency d d1 business call_id args cal3 = .done r d1 ∧
    d1.bookings.length = d.bookings.length + 1 ∧
    (d1.idem.filter (fun rec => rec.key == k)).length = 1 := by
  obtain ⟨resp, cdb, bid, hph, hfind, hlen, hfilt, hok, hbk⟩ :=
    create_fresh_committed d business call_id args k hk hfresh
  unfold create_booking_with_idempotency at hrun
  rw [hph] at hrun
  simp only [CreateOutcome.done.injEq] at hrun
  obtain ⟨hr1, hr2⟩ := hrun
  obtain ⟨hcsf, hcsl, hcsfl⟩ := calendarSync_spec business k resp bid cdb cal hfind
  rw [hr1, hr2] at hcsf
  rw [hr2] at hcsl hcsfl
  refine ⟨?_, ?_, ?_, ?_⟩
  · exact create_replay_of_found d1 d1 business call_id args cal2 k ⟨k, r⟩ hk hcsf
  · exact create_conflict_replay d d1 business call_id args cal3 k ⟨k, r⟩ hk hfresh hcsf
  · rw [hcsl]; exact hlen
  · rw [hcsfl]; exact hfilt

/-- C2 witness: a concrete first create on an empty store, its sequential
duplicate and its racing duplicate. -/
theorem c2_duplicate_create_replays_witness :
    compute_create_booking_idempotency_key (some "call1")
      ⟨"Alice", "p1", 0, 2, none⟩ = .ok "call1|0|p1" ∧
    find_idempotency_key ⟨[], [], [], 1, 1⟩ "call1|0|p1" = none ∧
    create_booking_with_idempotency ⟨[], [], [], 1, 1⟩ ⟨[], [], [], 1, 1⟩
        ⟨1, none, "B", "UTC", none, none, none, none, "not_connected"⟩
        (some "call1") ⟨"Alice", "p1", 0, 2, none⟩ (.returns none) =
      .done ⟨true, ⟨1, 1, "Alice", "p1", 0, 5400, 2, "confirmed", "retell", none, none⟩⟩
        ⟨[⟨1, 1, "Alice", "p1"⟩],
          [⟨1, 1, 1, 0, 5400, 2, "confirmed", none, "retell", none, none⟩],
          [⟨"call1|0|p1",
            ⟨true, ⟨1, 1, "Alice", "p1", 0, 5400, 2, "confirmed", "retell", none, none⟩⟩⟩],
          2, 2⟩ ∧
    (create_booking_with_idempotency
        ⟨[⟨1, 1, "Alice", "p1"⟩],
          [⟨1, 1, 1, 0, 5400, 2, "confirmed", none, "retell", none, none⟩],
          [⟨"call1|0|p1",
            ⟨true, ⟨1, 1, "Alice", "p1", 0, 5400, 2, "confirmed", "retell", none, none⟩⟩⟩],
          2, 2⟩
        ⟨[⟨1, 1, "Alice", "p1"⟩],
          [⟨1, 1, 1, 0, 5400, 2, "confirmed", none, "retell", none, none⟩],
          [⟨"call1|0|p1",
            ⟨true, ⟨1, 1, "Alice", "p1", 0, 5400, 2, "confirmed", "retell", none, none⟩⟩⟩],
          2, 2⟩
        ⟨1, none, "B", "UTC", none, none, none, none, "not_connected"⟩
        (some "call1") ⟨"Alice", "p1", 0, 2, none⟩ (.raises) =
      .done ⟨true, ⟨1, 1, "Alice", "p1", 0, 5400, 2, "confirmed", "retell", none, none⟩⟩
        ⟨[⟨1, 1, "Alice", "p1"⟩],
          [⟨1, 1, 1, 0, 5400, 2, "confirmed", none, "retell", none, none⟩],
          [⟨"call1|0|p1",
            ⟨true, ⟨1, 1, "Alice", "p1", 0, 5400, 2, "confirmed", "retell", none, none⟩⟩⟩],
          2, 2⟩ ∧
      create_booking_with_idempotency ⟨[], [], [], 1, 1⟩
        ⟨[⟨1, 1, "Alice", "p1"⟩],
          [⟨1, 1, 1, 0, 5400, 2, "confirmed", none, "retell", none, none⟩],
          [⟨"call1|0|p1",
            ⟨true, ⟨1, 1, "Alice", "p1", 0, 5400, 2, "confirmed", "retell", none, none⟩⟩⟩],
          2, 2⟩
        ⟨1, none, "B", "UTC", none, none, none, none, "not_connected"⟩
        (some "call1") ⟨"Alice", "p1", 0, 2, none⟩ (.returns (some "x")) =
      .done ⟨true, ⟨1, 1, "Alice", "p1", 0, 5400, 2, "confirmed", "retell", none, none⟩⟩
        ⟨[⟨1, 1, "Alice", "p1"⟩],
          [⟨1, 1, 1, 0, 5400, 2, "confirmed", none, "retell", none, none⟩],
          [⟨"call1|0|p1",
            ⟨true, ⟨1, 1, "Alice", "p1", 0, 5400, 2, "confirmed", "retell", none, none⟩⟩⟩],
          2, 2⟩) :=
  ⟨by decide, by decide, by decide,
    (c2_duplicate_create_replays ⟨[], [], [], 1, 1⟩
      ⟨1, none, "B", "UTC", none, none, none, none, "not_connected"⟩
      (some "call1") ⟨"Alice", "p1", 0, 2, none⟩ (.returns none) (.raises) (.returns (some "x"))
      "call1|0|p1"
      ⟨true, ⟨1, 1, "Alice", "p1", 0, 5400, 2, "confirmed", "retell", none, none⟩⟩
      ⟨[⟨1, 1, "Alice", "p1"⟩],
        [⟨1, 1, 1, 0, 5400, 2, "confirmed", none, "retell", none, none⟩],
        [⟨"call1|0|p1",
          ⟨true, ⟨1, 1, "Alice", "p1", 0, 5400, 2, "confirmed", "retell", none, none⟩⟩⟩],
        2, 2⟩
      (by decide) (by decide) (by decide)).1,
    ((c2_duplicate_create_replays ⟨[], [], [], 1, 1⟩
      ⟨1, none, "B", "UTC", none, none, none, none, "not_connected"⟩
      (some "call1") ⟨"Alice", "p1", 0, 2, none⟩ (.returns none) (.raises) (.returns (some "x"))
      "call1|0|p1"
      ⟨true, ⟨1, 1, "Alice", "p1", 0, 5400, 2, "confirmed", "retell", none, none⟩⟩
      ⟨[⟨1, 1, "Alice", "p1"⟩],
        [⟨1, 1, 1, 0, 5400, 2, "confirmed", none, "retell", none, none⟩],
        [⟨"call1|0|p1",
          ⟨true, ⟨1, 1, "Alice", "p1", 0, 5400, 2, "confirmed", "retell", none, none⟩⟩⟩],
        2, 2⟩
      (by decide) (by decide) (by decide)).2).1⟩

end Callgate

namespace Callgate

/-- C5: the claim states that a modify whose new start is infeasible against all
other non-cancelled bookings of the tenant is rejected with NO_AVAILABILITY and
leaves the booking unchanged. The code violates it: with a target booking of 50
guests, a cap of 40, and one other (non-overlapping) booking, the requested move
is infeasible against the other bookings both under the spec bucket-sum
definition and under the code's own `is_slot_available` run on all other
bookings, yet `modify_booking` applies the move and returns ok, because the
fetch window drops the non-overlapping booking and the misplaced in-loop cap
check (see C1) then accepts the empty list. -/
theorem c5_infeasible_move_applied :
    ¬ specSlotFeasible 3600 50 90 40
        [⟨2, 1, 1, 86400, 91800, 2, "confirmed", none, "retell", none, none⟩] ∧
    is_slot_available 3600 50 90 40
        [⟨2, 1, 1, 86400, 91800, 2, "confirmed", none, "retell", none, none⟩] = false ∧
    modify_booking
        ⟨[], [⟨1, 1, 1, 0, 5400, 50, "confirmed", none, "retell", none, none⟩,
              ⟨2, 1, 1, 86400, 91800, 2, "confirmed", none, "retell", none, none⟩], [], 1, 3⟩
        ⟨1, none, "B", "UTC", none, none, some ⟨none, some 40⟩, none, "not_connected"⟩
        ⟨1, some 3600, none, none⟩ (.succeeds) =
      (.ok ⟨1, 3600, 9000, 50, none, "confirmed", "retell", none⟩,
        ⟨[], [⟨1, 1, 1, 3600, 9000, 50, "confirmed", none, "retell", none, none⟩,
              ⟨2, 1, 1, 86400, 91800, 2, "confirmed", none, "retell", none, none⟩], [], 1, 3⟩) := by
  refine ⟨by decide, by decide, by decide⟩

/-- C6: modify and cancel directed at a booking id that only exists under a
different tenant return BOOKING_NOT_FOUND, exactly as for a nonexistent id, and
leave the whole store unchanged. -/
theorem c6_cross_tenant_booking_not_found (db : DB) (business : Business)
    (args : ModifyBookingArgs) (calM calC : SideEffectOutcome)
    (h : ∀ b ∈ db.bookings, b.id = args.booking_id → b.business_id ≠ business.id) :
    modify_booking db business args calM =
      (.err "BOOKING_NOT_FOUND" "Booking not found for this business.", db) ∧
    cancel_booking db business args.booking_id calC =
      (.err "BOOKING_NOT_FOUND" "Booking not found for this business.", db) := by
  have hfind : find_booking_for_business db business.id args.booking_id = none := by
    unfold find_booking_for_business
    rw [List.find?_eq_none]
    intro b hb
    simp only [Bool.and_eq_true, beq_iff_eq, not_and]
    intro hid hbiz
    exact h b hb hid hbiz
  constructor
  · unfold modify_booking
    rw [hfind]
  · unfold cancel_booking
    rw [hfind]

/-- C6 witness: a booking owned by tenant 999 is invisible to tenant 1. -/
theorem c6_cross_tenant_booking_not_found_witness :
    (∀ b ∈ (⟨[], [⟨3, 999, 1, 0, 5400, 2, "confirmed", none, "retell", none, none⟩], [], 1, 4⟩ :
        DB).bookings, b.id = 3 → b.business_id ≠ 1) ∧
    modify_booking
        ⟨[], [⟨3, 999, 1, 0, 5400, 2, "confirmed", none, "retell", none, none⟩], [], 1, 4⟩
        ⟨1, none, "B", "UTC", none, none, none, none, "not_connected"⟩
        ⟨3, none, none, some "attempt"⟩ (.succeeds) =
      (.err "BOOKING_NOT_FOUND" "Booking not found for this business.",
        ⟨[], [⟨3, 999, 1, 0, 5400, 2, "confirmed", none, "retell", none, none⟩], [], 1, 4⟩) :=
  ⟨by decide,
    (c6_cross_tenant_booking_not_found
      ⟨[], [⟨3, 999, 1, 0, 5400, 2, "confirmed", none, "retell", none, none⟩], [], 1, 4⟩
      ⟨1, none, "B", "UTC", none, none, none, none, "not_connected"⟩
      ⟨3, none, none, some "attempt"⟩ (.succeeds) (.succeeds) (by decide)).1⟩

end Callgate

namespace Callgate

/-- C7: cancelling twice returns ok with status cancelled both times; the second
call is a pure read (state unchanged, no warning, never an error), and an
already-cancelled booking is reported successfully with its status unchanged. -/
theorem c7_cancel_idempotent (db : DB) (business : Business) (booking_id : Nat)
    (cal1 cal2 : SideEffectOutcome) (b : BookingRow)
    (hfind : find_booking_for_business db business.id booking_id = some b)
    (hstatus : b.status = "confirmed" ∨ b.status = "cancelled") :
    ∃ w,
      (cancel_booking db business booking_id cal1).1 = .ok ⟨b.id, "cancelled", w⟩ ∧
      cancel_booking (cancel_booking db business booking_id cal1).2 business booking_id cal2 =
        (.ok ⟨b.id, "cancelled", none⟩, (cancel_booking db business booking_id cal1).2) := by
  rcases hstatus with hst | hst
  · have hcl : (pyLower b.status == "cancelled") = false := by rw [hst]; decide
    have hp : (b.id == booking_id && b.business_id == business.id) = true := by
      have h2 := List.find?_some hfind
      simpa using h2
    have h1 : cancel_booking db business booking_id cal1 =
        (.ok ⟨b.id, "cancelled",
           if should_sync_google_event business { b with status := "cancelled" } then
             match cal1 with
             | SideEffectOutcome.succeeds => none
             | SideEffectOutcome.raises => some "Calendar sync failed"
           else none⟩,
         { db with bookings :=
             (replaceBookingFirst booking_id business.id { b with status := "cancelled" }
               db.bookings) }) := by
      unfold cancel_booking
      rw [hfind]
      simp [hcl]
    have hfind1 : find_booking_for_business
        { db with bookings :=
          (replaceBookingFirst booking_id business.id { b with status := "cancelled" }
            db.bookings) } business.id booking_id =
        some { b with status := "cancelled" } := by
      unfold find_booking_for_business
      apply find?_replaceBookingFirst
      · unfold find_booking_for_business at hfind
        rw [hfind]
        exact fun hc => Option.noConfusion hc
      · simpa using hp
    have hpc : (pyLower "cancelled" == "cancelled") = true := by decide
    have hsecond : cancel_booking
        { db with bookings :=
          (replaceBookingFirst booking_id business.id { b with status := "cancelled" }
            db.bookings) } business booking_id cal2 =
        (.ok ⟨b.id, "cancelled", none⟩,
          { db with bookings :=
            (replaceBookingFirst booking_id business.id { b with status := "cancelled" }
              db.bookings) }) := by
      unfold cancel_booking
      rw [hfind1]
      simp [hpc]
    exact ⟨_, congrArg Prod.fst h1, by rw [h1]; exact hsecond⟩
  · have hcl : (pyLower b.status == "cancelled") = true := by rw [hst]; decide
    have h1 : cancel_booking db business booking_id cal1 = (.ok ⟨b.id, b.status, none⟩, db) := by
      unfold cancel_booking
      rw [hfind]
      simp [hcl]
    refine ⟨none, ?_, ?_⟩
    · rw [h1, hst]
    · rw [h1]
      unfold cancel_booking
      rw [hfind]
      simp only [hcl]
      rw [hst]
      simp

/-- C7 witness: a concrete confirmed booking cancelled twice. -/
theorem c7_cancel_idempotent_witness :
    find_booking_for_business
        ⟨[], [⟨5, 1, 1, 0, 5400, 2, "confirmed", none, "retell", none, none⟩], [], 1, 6⟩ 1 5 =
      some ⟨5, 1, 1, 0, 5400, 2, "confirmed", none, "retell", none, none⟩ ∧
    ∃ w,
      (cancel_booking
          ⟨[], [⟨5, 1, 1, 0, 5400, 2, "confirmed", none, "retell", none, none⟩], [], 1, 6⟩
          ⟨1, none, "B", "UTC", none, none, none, none, "not_connected"⟩ 5 (.succeeds)).1 =
        .ok ⟨5, "cancelled", w⟩ ∧
      cancel_booking
          (cancel_booking
            ⟨[], [⟨5, 1, 1, 0, 5400, 2, "confirmed", none, "retell", none, none⟩], [], 1, 6⟩
            ⟨1, none, "B", "UTC", none, none, none, none, "not_connected"⟩ 5 (.succeeds)).2
          ⟨1, none, "B", "UTC", none, none, none, none, "not_connected"⟩ 5 (.succeeds) =
        (.ok ⟨5, "cancelled", none⟩,
          (cancel_booking
            ⟨[], [⟨5, 1, 1, 0, 5400, 2, "confirmed", none, "retell", none, none⟩], [], 1, 6⟩
            ⟨1, none, "B", "UTC", none, none, none, none, "not_connected"⟩ 5 (.succeeds)).2) :=
  ⟨by decide,
    c7_cancel_idempotent
      ⟨[], [⟨5, 1, 1, 0, 5400, 2, "confirmed", none, "retell", none, none⟩], [], 1, 6⟩
      ⟨1, none, "B", "UTC", none, none, none, none, "not_connected"⟩ 5 (.succeeds) (.succeeds)
      ⟨5, 1, 1, 0, 5400, 2, "confirmed", none, "retell", none, none⟩
      (by decide) (Or.inl rfl)⟩

end Callgate

namespace Callgate

theorem createPhase1_committed_inv (snapshot commitDB : DB) (business : Business)
    (call_id : Option String) (args : CreateBookingArgs) (k : String)
    (resp : CreateResponse) (bid : Nat) (cdb : DB)
    (hph : createPhase1 snapshot commitDB business call_id args = .committed k resp bid cdb) :
    resp.ok = true ∧ resp.data.warning = none ∧
    cdb.idem = commitDB.idem ++ [⟨k, resp⟩] ∧
    (∃ bk, cdb.bookings = commitDB.bookings ++ [bk] ∧ bk.status = "confirmed" ∧
      bk.id = resp.data.booking_id ∧ bk.id = bid) := by
  unfold createPhase1 at hph
  split at hph
  · exact CreatePhase1.noConfusion hph
  split at hph
  · exact CreatePhase1.noConfusion hph
  split at hph
  · exact CreatePhase1.noConfusion hph
  cases hph
  exact ⟨rfl, rfl, rfl, ⟨_, rfl, rfl, rfl, rfl⟩⟩

/-- C8: when the primary commit of a fresh create succeeds and the calendar call
then raises, the call still returns the committed response with ok = true plus a
non-fatal warning field, and the booking row stays committed and confirmed: the
only state change after the commit is the rewrite of the stored idempotent
response, never a rollback of the booking. -/
theorem c8_calendar_failure_is_soft (d : DB) (business : Business)
    (call_id : Option String) (args : CreateBookingArgs) (k : String)
    (resp : CreateResponse) (bid : Nat) (cdb : DB)
    (hph : createPhase1 d d business call_id args = .committed k resp bid cdb)
    (hconn : is_google_calendar_connected business = true) :
    create_booking_with_idempotency d d business call_id args .raises =
      .done { resp with data := { resp.data with warning := some "Calendar sync failed" } }
        { cdb with idem :=
          (setIdemResponseFirst k
            { resp with data := { resp.data with warning := some "Calendar sync failed" } }
            cdb.idem) } ∧
    resp.ok = true ∧
    (∃ bk, cdb.bookings = d.bookings ++ [bk] ∧ bk.status = "confirmed" ∧
      bk.id = resp.data.booking_id) := by
  obtain ⟨hok, hwarn, hidem, bk, hbk1, hbk2, hbk3, hbk4⟩ :=
    createPhase1_committed_inv d d business call_id args k resp bid cdb hph
  refine ⟨?_, hok, ⟨bk, hbk1, hbk2, hbk3⟩⟩
  unfold create_booking_with_idempotency
  rw [hph]
  unfold calendarSync
  rw [hconn]
  simp

end Callgate

namespace Callgate

/-- C8 witness: a concrete fresh create for a calendar-connected business whose
calendar call raises. -/
theorem c8_calendar_failure_is_soft_witness :
    createPhase1 ⟨[], [], [], 1, 1⟩ ⟨[], [], [], 1, 1⟩
        ⟨1, none, "B", "UTC", none, none, none, some "google", "connected"⟩
        (some "call1") ⟨"Alice", "p1", 0, 2, none⟩ =
      .committed "call1|0|p1"
        ⟨true, ⟨1, 1, "Alice", "p1", 0, 5400, 2, "confirmed", "retell", none, none⟩⟩ 1
        ⟨[⟨1, 1, "Alice", "p1"⟩],
          [⟨1, 1, 1, 0, 5400, 2, "confirmed", none, "retell", none, none⟩],
          [⟨"call1|0|p1",
            ⟨true, ⟨1, 1, "Alice", "p1", 0, 5400, 2, "confirmed", "retell", none, none⟩⟩⟩],
          2, 2⟩ ∧
    is_google_calendar_connected
        ⟨1, none, "B", "UTC", none, none, none, some "google", "connected"⟩ = true ∧
    (create_booking_with_idempotency ⟨[], [], [], 1, 1⟩ ⟨[], [], [], 1, 1⟩
        ⟨1, none, "B", "UTC", none, none, none, some "google", "connected"⟩
        (some "call1") ⟨"Alice", "p1", 0, 2, none⟩ .raises =
      .done
        ⟨true, ⟨1, 1, "Alice", "p1", 0, 5400, 2, "confirmed", "retell", none,
          some "Calendar sync failed"⟩⟩
        ⟨[⟨1, 1, "Alice", "p1"⟩],
          [⟨1, 1, 1, 0, 5400, 2, "confirmed", none, "retell", none, none⟩],
          [⟨"call1|0|p1",
            ⟨true, ⟨1, 1, "Alice", "p1", 0, 5400, 2, "confirmed", "retell", none,
              some "Calendar sync failed"⟩⟩⟩],
          2, 2⟩ ∧
      (⟨true, ⟨1, 1, "Alice", "p1", 0, 5400, 2, "confirmed", "retell", none, none⟩⟩ :
        CreateResponse).ok = true ∧
      (∃ bk, (⟨[⟨1, 1, "Alice", "p1"⟩],
          [⟨1, 1, 1, 0, 5400, 2, "confirmed", none, "retell", none, none⟩],
          [⟨"call1|0|p1",
            ⟨true, ⟨1, 1, "Alice", "p1", 0, 5400, 2, "confirmed", "retell", none, none⟩⟩⟩],
          2, 2⟩ : DB).bookings = (⟨[], [], [], 1, 1⟩ : DB).bookings ++ [bk] ∧
        bk.status = "confirmed" ∧ bk.id = 1)) :=
  ⟨by decide, by decide, by
    exact c8_calendar_failure_is_soft ⟨[], [], [], 1, 1⟩
      ⟨1, none, "B", "UTC", none, none, none, some "google", "connected"⟩
      (some "call1") ⟨"Alice", "p1", 0, 2, none⟩ "call1|0|p1"
      ⟨true, ⟨1, 1, "Alice", "p1", 0, 5400, 2, "confirmed", "retell", none, none⟩⟩ 1
      ⟨[⟨1, 1, "Alice", "p1"⟩],
        [⟨1, 1, 1, 0, 5400, 2, "confirmed", none, "retell", none, none⟩],
        [⟨"call1|0|p1",
          ⟨true, ⟨1, 1, "Alice", "p1", 0, 5400, 2, "confirmed", "retell", none, none⟩⟩⟩],
        2, 2⟩
      (by decide) (by decide)⟩

/-- C9 counterexample: the stored idempotent response payload is rewritten after
the record is created. The record is committed by phase 1 with the warning-free
payload; the calendar failure path of the very same call then overwrites the
stored payload with the warning-carrying one, so the payload is modified after
creation and the claim as stated is false. -/
theorem c9_counterexample_stored_payload_rewritten :
    createPhase1 ⟨[], [], [], 1, 1⟩ ⟨[], [], [], 1, 1⟩
        ⟨1, none, "B", "UTC", none, none, none, some "google", "connected"⟩
        (some "call1") ⟨"Alice", "p1", 0, 2, none⟩ =
      .committed "call1|0|p1"
        ⟨true, ⟨1, 1, "Alice", "p1", 0, 5400, 2, "confirmed", "retell", none, none⟩⟩ 1
        ⟨[⟨1, 1, "Alice", "p1"⟩],
          [⟨1, 1, 1, 0, 5400, 2, "confirmed", none, "retell", none, none⟩],
          [⟨"call1|0|p1",
            ⟨true, ⟨1, 1, "Alice", "p1", 0, 5400, 2, "confirmed", "retell", none, none⟩⟩⟩],
          2, 2⟩ ∧
    create_booking_with_idempotency ⟨[], [], [], 1, 1⟩ ⟨[], [], [], 1, 1⟩
        ⟨1, none, "B", "UTC", none, none, none, some "google", "connected"⟩
        (some "call1") ⟨"Alice", "p1", 0, 2, none⟩ .raises =
      .done
        ⟨true, ⟨1, 1, "Alice", "p1", 0, 5400, 2, "confirmed", "retell", none,
          some "Calendar sync failed"⟩⟩
        ⟨[⟨1, 1, "Alice", "p1"⟩],
          [⟨1, 1, 1, 0, 5400, 2, "confirmed", none, "retell", none, none⟩],
          [⟨"call1|0|p1",
            ⟨true, ⟨1, 1, "Alice", "p1", 0, 5400, 2, "confirmed", "retell", none,
              some "Calendar sync failed"⟩⟩⟩],
          2, 2⟩ ∧
    (⟨true, ⟨1, 1, "Alice", "p1", 0, 5400, 2, "confirmed", "retell", none,
        some "Calendar sync failed"⟩⟩ : CreateResponse) ≠
      ⟨true, ⟨1, 1, "Alice", "p1", 0, 5400, 2, "confirmed", "retell", none, none⟩⟩ := by
  refine ⟨by decide, by decide, by decide⟩

/-- C9 (amended): the idempotency record is created at most once per key and its
payload is rewritten only within the creating call itself (to attach the
calendar-sync warning before returning); every later operation reads it verbatim
with no writes (the replay path returns the stored payload and the unchanged
state) or leaves it untouched (modify and cancel never write idempotency rows). -/
theorem c9_record_read_only_across_calls (snapshot commitDB : DB) (business : Business)
    (call_id : Option String) (args : CreateBookingArgs) (cal : CalendarCall)
    (k : String) (rec : IdemRecord) (margs : ModifyBookingArgs)
    (mcal ccal : SideEffectOutcome) (mbiz cbiz : Business) (cbid : Nat)
    (hk : compute_create_booking_idempotency_key call_id args = .ok k)
    (hfound : find_idempotency_key snapshot k = some rec) :
    create_booking_with_idempotency snapshot commitDB business call_id args cal =
      .done rec.response_json commitDB ∧
    (modify_booking commitDB mbiz margs mcal).2.idem = commitDB.idem ∧
    (cancel_booking commitDB cbiz cbid ccal).2.idem = commitDB.idem := by
  refine ⟨create_replay_of_found _ _ _ _ _ _ _ _ hk hfound, ?_, ?_⟩
  · unfold modify_booking
    dsimp only
    repeat' split
    all_goals rfl
  · unfold cancel_booking
    dsimp only
    repeat' split
    all_goals rfl

/-- C9 witness: a concrete replay on a store already carrying the record. -/
theorem c9_record_read_only_across_calls_witness :
    compute_create_booking_idempotency_key (some "call1") ⟨"Alice", "p1", 0, 2, none⟩ =
      .ok "call1|0|p1" ∧
    find_idempotency_key
        ⟨[⟨1, 1, "Alice", "p1"⟩],
          [⟨1, 1, 1, 0, 5400, 2, "confirmed", none, "retell", none, none⟩],
          [⟨"call1|0|p1",
            ⟨true, ⟨1, 1, "Alice", "p1", 0, 5400, 2, "confirmed", "retell", none, none⟩⟩⟩],
          2, 2⟩ "call1|0|p1" =
      some ⟨"call1|0|p1",
        ⟨true, ⟨1, 1, "Alice", "p1", 0, 5400, 2, "confirmed", "retell", none, none⟩⟩⟩ ∧
    (create_booking_with_idempotency
        ⟨[⟨1, 1, "Alice", "p1"⟩],
          [⟨1, 1, 1, 0, 5400, 2, "confirmed", none, "retell", none, none⟩],
          [⟨"call1|0|p1",
            ⟨true, ⟨1, 1, "Alice", "p1", 0, 5400, 2, "confirmed", "retell", none, none⟩⟩⟩],
          2, 2⟩
        ⟨[⟨1, 1, "Alice", "p1"⟩],
          [⟨1, 1, 1, 0, 5400, 2, "confirmed", none, "retell", none, none⟩],
          [⟨"call1|0|p1",
            ⟨true, ⟨1, 1, "Alice", "p1", 0, 5400, 2, "confirmed", "retell", none, none⟩⟩⟩],
          2, 2⟩
        ⟨1, none, "B", "UTC", none, none, none, none, "not_connected"⟩
        (some "call1") ⟨"Alice", "p1", 0, 2, none⟩ (.returns none) =
      .done
        (⟨"call1|0|p1",
          ⟨true, ⟨1, 1, "Alice", "p1", 0, 5400, 2, "confirmed", "retell", none, none⟩⟩⟩ :
          IdemRecord).response_json
        ⟨[⟨1, 1, "Alice", "p1"⟩],
          [⟨1, 1, 1, 0, 5400, 2, "confirmed", none, "retell", none, none⟩],
          [⟨"call1|0|p1",
            ⟨true, ⟨1, 1, "Alice", "p1", 0, 5400, 2, "confirmed", "retell", none, none⟩⟩⟩],
          2, 2⟩ ∧
      (modify_booking
        ⟨[⟨1, 1, "Alice", "p1"⟩],
          [⟨1, 1, 1, 0, 5400, 2, "confirmed", none, "retell", none, none⟩],
          [⟨"call1|0|p1",
            ⟨true, ⟨1, 1, "Alice", "p1", 0, 5400, 2, "confirmed", "retell", none, none⟩⟩⟩],
          2, 2⟩
        ⟨1, none, "B", "UTC", none, none, none, none, "not_connected"⟩
        ⟨1, none, none, some "note"⟩ (.succeeds)).2.idem =
      (⟨[⟨1, 1, "Alice", "p1"⟩],
          [⟨1, 1, 1, 0, 5400, 2, "confirmed", none, "retell", none, none⟩],
          [⟨"call1|0|p1",
            ⟨true, ⟨1, 1, "Alice", "p1", 0, 5400, 2, "confirmed", "retell", none, none⟩⟩⟩],
          2, 2⟩ : DB).idem ∧
      (cancel_booking
        ⟨[⟨1, 1, "Alice", "p1"⟩],
          [⟨1, 1, 1, 0, 5400, 2, "confirmed", none, "retell", none, none⟩],
          [⟨"call1|0|p1",
            ⟨true, ⟨1, 1, "Alice", "p1", 0, 5400, 2, "confirmed", "retell", none, none⟩⟩⟩],
          2, 2⟩
        ⟨1, none, "B", "UTC", none, none, none, none, "not_connected"⟩ 1 (.succeeds)).2.idem =
      (⟨[⟨1, 1, "Alice", "p1"⟩],
          [⟨1, 1, 1, 0, 5400, 2, "confirmed", none, "retell", none, none⟩],
          [⟨"call1|0|p1",
            ⟨true, ⟨1, 1, "Alice", "p1", 0, 5400, 2, "confirmed", "retell", none, none⟩⟩⟩],
          2, 2⟩ : DB).idem) :=
  ⟨by decide, by decide, by
    exact c9_record_read_only_across_calls
      ⟨[⟨1, 1, "Alice", "p1"⟩],
        [⟨1, 1, 1, 0, 5400, 2, "confirmed", none, "retell", none, none⟩],
        [⟨"call1|0|p1",
          ⟨true, ⟨1, 1, "Alice", "p1", 0, 5400, 2, "confirmed", "retell", none, none⟩⟩⟩],
        2, 2⟩
      ⟨[⟨1, 1, "Alice", "p1"⟩],
        [⟨1, 1, 1, 0, 5400, 2, "confirmed", none, "retell", none, none⟩],
        [⟨"call1|0|p1",
          ⟨true, ⟨1, 1, "Alice", "p1", 0, 5400, 2, "confirmed", "retell", none, none⟩⟩⟩],
        2, 2⟩
      ⟨1, none, "B", "UTC", none, none, none, none, "not_connected"⟩
      (some "call1") ⟨"Alice", "p1", 0, 2, none⟩ (.returns none) "call1|0|p1"
      ⟨"call1|0|p1",
        ⟨true, ⟨1, 1, "Alice", "p1", 0, 5400, 2, "confirmed", "retell", none, none⟩⟩⟩
      ⟨1, none, none, some "note"⟩ (.succeeds) (.succeeds)
      ⟨1, none, "B", "UTC", none, none, none, none, "not_connected"⟩
      ⟨1, none, "B", "UTC", none, none, none, none, "not_connected"⟩ 1
      (by decide) (by decide)⟩

end Callgate

namespace Callgate

/-- C10: a modify that changes only party size and/or notes (start_time absent)
is applied and committed with no feasibility or capacity check: the conclusion
holds for every store, every policy cap and every party size, because the
capacity re-check is guarded by `args.start_time is not None`. -/
theorem c10_party_change_skips_capacity_check (db : DB) (business : Business)
    (args : ModifyBookingArgs) (calendar : SideEffectOutcome) (b : BookingRow)
    (hstart : args.start_time = none)
    (hfind : find_booking_for_business db business.id args.booking_id = some b)
    (hnc : (pyLower b.status == "cancelled") = false) :
    ∃ w,
      modify_booking db business args calendar =
        (.ok ⟨b.id, b.start_time, b.start_time + BOOKING_DURATION_MINUTES * 60,
           (match args.party_size with
            | some p => if p = 0 then b.party_size else p
            | none => b.party_size),
           (match args.notes with
            | some n => some n
            | none => b.notes),
           b.status, b.source, w⟩,
         { db with bookings :=
           (replaceBookingFirst args.booking_id business.id
             { b with
               end_time := b.start_time + BOOKING_DURATION_MINUTES * 60
               party_size := (match args.party_size with
                 | some p => if p = 0 then b.party_size else p
                 | none => b.party_size)
               notes := (match args.notes with
                 | some n => some n
                 | none => b.notes) }
             db.bookings) }) := by
  unfold modify_booking
  rw [hfind, hstart]
  simp only [hnc, Bool.false_eq_true, if_false, Option.getD_none]
  exact ⟨_, rfl⟩

/-- C10 witness: the party size of a booking is raised to 100 against a cap of 40
while another booking of 39 guests overlaps the same buckets; the change is
committed although the resulting bucket totals are far beyond the cap. -/
theorem c10_party_change_skips_capacity_check_witness :
    find_booking_for_business
        ⟨[], [⟨1, 1, 1, 0, 5400, 2, "confirmed", none, "retell", none, none⟩,
              ⟨2, 1, 1, 0, 5400, 39, "confirmed", none, "retell", none, none⟩], [], 1, 3⟩ 1 1 =
      some ⟨1, 1, 1, 0, 5400, 2, "confirmed", none, "retell", none, none⟩ ∧
    ¬ specSlotFeasible 0 100 90 40
        [⟨2, 1, 1, 0, 5400, 39, "confirmed", none, "retell", none, none⟩] ∧
    ∃ w,
      modify_booking
          ⟨[], [⟨1, 1, 1, 0, 5400, 2, "confirmed", none, "retell", none, none⟩,
                ⟨2, 1, 1, 0, 5400, 39, "confirmed", none, "retell", none, none⟩], [], 1, 3⟩
          ⟨1, none, "B", "UTC", none, none, some ⟨none, some 40⟩, none, "not_connected"⟩
          ⟨1, none, some 100, none⟩ (.succeeds) =
        (.ok ⟨1, 0, 0 + BOOKING_DURATION_MINUTES * 60,
           (match (some 100 : Option Int) with
            | some p => if p = 0 then (2 : Int) else p
            | none => 2),
           (match (none : Option String) with
            | some n => some n
            | none => (none : Option String)),
           "confirmed", "retell", w⟩,
         { (⟨[], [⟨1, 1, 1, 0, 5400, 2, "confirmed", none, "retell", none, none⟩,
                  ⟨2, 1, 1, 0, 5400, 39, "confirmed", none, "retell", none, none⟩], [], 1, 3⟩ : DB)
             with bookings :=
           (replaceBookingFirst 1 1
             { (⟨1, 1, 1, 0, 5400, 2, "confirmed", none, "retell", none, none⟩ : BookingRow) with
               end_time := 0 + BOOKING_DURATION_MINUTES * 60
               party_size := (match (some 100 : Option Int) with
                 | some p => if p = 0 then (2 : Int) else p
                 | none => 2)
               notes := (match (none : Option String) with
                 | some n => some n
                 | none => (none : Option String)) }
             [⟨1, 1, 1, 0, 5400, 2, "confirmed", none, "retell", none, none⟩,
              ⟨2, 1, 1, 0, 5400, 39, "confirmed", none, "retell", none, none⟩]) }) :=
  ⟨by decide, by decide,
    c10_party_change_skips_capacity_check
      ⟨[], [⟨1, 1, 1, 0, 5400, 2, "confirmed", none, "retell", none, none⟩,
            ⟨2, 1, 1, 0, 5400, 39, "confirmed", none, "retell", none, none⟩], [], 1, 3⟩
      ⟨1, none, "B", "UTC", none, none, some ⟨none, some 40⟩, none, "not_connected"⟩
      ⟨1, none, some 100, none⟩ (.succeeds)
      ⟨1, 1, 1, 0, 5400, 2, "confirmed", none, "retell", none, none⟩
      rfl (by decide) (by decide)⟩

end Callgate
